import Mathlib

/-!
Verification of the swarm-guessing backend (`src/app.py`).

The whole mutable state of the program is the module-level dictionary
`game_data`; every HTTP handler is a function from that state (plus the
request payload) to a response and an updated state.  We embed each handler
as a pure Lean function `GameData → args → Except SwarmError Payload × GameData`.
Timestamps (`datetime.now()`), the uuid for a new game and the saved image
filename are external inputs, so they are passed as explicit arguments.
Python floats are modelled by exact rationals; `round(x, 1)` is modelled by
round-half-to-even at one decimal, which is what Python produces on the
inputs exercised here.
-/

attribute [local semireducible] Rat.mul Rat.inv Rat.add Rat.sub Rat.ofScientific

/-- Model of Python `str.strip()`: drop leading and trailing whitespace. -/
def pyStrip (s : String) : String :=
  String.mk (((s.data.dropWhile Char.isWhitespace).reverse.dropWhile
    Char.isWhitespace).reverse)

/-- Decimal digits of `n`, least significant first, computed with `n` itself as
structural fuel (enough since `n` has at most `n` digits).  Models the digit
string that the Python builtin `str` produces for a nonnegative integer. -/
def digitsAux : Nat → Nat → List Nat
  | 0, _ => []
  | fuel + 1, n => if n = 0 then [] else n % 10 :: digitsAux fuel (n / 10)

/-- Decimal digits of `n`, least significant first. -/
def decDigits (n : Nat) : List Nat := digitsAux n n

/-- The character for one decimal digit. -/
def decDigitChar (d : Nat) : Char := Char.ofNat (48 + d)

/-- Model of Python `str(n)` for a natural number: its decimal representation. -/
def natRepr (n : Nat) : String :=
  if n = 0 then "0" else String.mk ((decDigits n).reverse.map decDigitChar)

/-- Model of Python `s.zfill(2)`: left-pad with zeros to width 2. -/
def zfill2 (s : String) : String :=
  if 2 ≤ s.length then s else String.mk (List.replicate (2 - s.length) '0') ++ s

/-- The node id the registry hands out when the current player count is
`count`, i.e. `"Node_" + str(count + 1).zfill(2)` (`generate_node_id`,
src/app.py lines 39-42, with `count = len(game_data['players'])`). -/
def node_id_for (k : Nat) : String := "Node_" ++ zfill2 (natRepr k)

/-- `VALID_ROLL_NUMBERS` (src/app.py lines 12-18): the string forms of
201..269 and 431..436. -/
def VALID_ROLL_NUMBERS : List String :=
  (List.range' 201 69 ++ List.range' 431 6).map natRepr

/-- A stored question (`game_data['current_game']`, src/app.py lines 117-123). -/
structure Game where
  id : String
  image : String
  options : List String
  correct_answer : String
  created_at : Nat
deriving DecidableEq

/-- A registered participant (the values of `game_data['players']`,
src/app.py lines 227-232). -/
structure Player where
  name : String
  roll_number : String
  joined_at : Nat
  avatar : String
deriving DecidableEq

/-- One submitted guess (the entries of `game_data['guesses']`,
src/app.py lines 264-268). -/
structure Guess where
  node_id : String
  guess : String
  timestamp : Nat
deriving DecidableEq

/-- One contribution-log record (src/app.py lines 64-70). -/
structure LogEntry where
  block_id : Nat
  node_id : String
  action : String
  timestamp : Nat
  impact : String
deriving DecidableEq

/-- The whole shared state `game_data` (src/app.py lines 21-31).  The
players dictionary is modelled as an insertion-ordered association list;
Python dict insertion with a fresh key is list append, and the keys handed
out by `generate_node_id` are proved fresh below. -/
structure GameData where
  admin_logged_in : Bool
  game_active : Bool
  game_ended : Bool
  revealed : Bool
  current_game : Option Game
  players : List (String × Player)
  guesses : List Guess
  swarm_results : List (String × ℚ)
  contribution_log : List LogEntry
deriving DecidableEq

/-- The initial value of `game_data` (src/app.py lines 21-31). -/
def initial_game_data : GameData :=
  { admin_logged_in := false, game_active := false, game_ended := false,
    revealed := false, current_game := none, players := [], guesses := [],
    swarm_results := [], contribution_log := [] }

/-- The failure outcomes of the handlers.  Each constructor corresponds to
one structured error response of src/app.py; `internalFault` stands for an
unhandled Python exception (a TypeError or KeyError escaping the handler,
surfaced by Flask as a 500 response). -/
inductive SwarmError where
  | adminNotLoggedIn      -- 'Admin not logged in' (AuthorizationError)
  | invalidCredentials    -- 'Invalid credentials'
  | noGameCreated         -- 'No game created'
  | gameNotEnded          -- 'Game not ended yet' / 'Game not ended' (PreconditionError)
  | notRevealed           -- 'Answer not revealed yet'
  | validationError       -- 'Name is required' / 'Roll number is required' / 'Node ID and guess required'
  | ineligibleRoster      -- 'Invalid roll number. ...'
  | duplicateRegistration -- 'Roll number already in use'
  | sessionNotActive      -- 'Game not active' (SessionNotActiveError)
  | unknownParticipant    -- 'Invalid node ID'
  | duplicateGuess        -- 'Already submitted' (DuplicateGuessError)
  | internalFault         -- unhandled exception, HTTP 500
deriving DecidableEq

deriving instance DecidableEq for Except

/-- Round half to even, the rounding mode of the Python builtin `round`. -/
def roundHalfEven (q : ℚ) : ℤ :=
  let n := Rat.floor q
  if q - n < 1 / 2 then n
  else if (1 : ℚ) / 2 < q - n then n + 1
  else if n % 2 = 0 then n else n + 1

/-- Model of Python `round(x, 1)` on exact rationals. -/
def pyRound1 (q : ℚ) : ℚ := (roundHalfEven (q * 10) : ℚ) / 10

/-- One step of building the `vote_counts` dictionary
(src/app.py lines 49-52): increment the count of `k`, inserting it at the
end on first occurrence, exactly as a Python dict does. -/
def bump (l : List (String × Nat)) (k : String) : List (String × Nat) :=
  match l with
  | [] => [(k, 1)]
  | (k', c) :: rest => if k' = k then (k', c + 1) :: rest else (k', c) :: bump rest k

/-- `calculate_swarm_confidence` (src/app.py lines 44-60): empty input gives
an empty mapping, otherwise tally votes per option and map each option to
`round(votes / total * 100, 1)`. -/
def calculate_swarm_confidence (guesses : List Guess) : List (String × ℚ) :=
  if guesses = [] then []
  else
    let vote_counts := guesses.foldl (fun m g => bump m g.guess) []
    let total_votes := (vote_counts.map Prod.snd).sum
    vote_counts.map fun p => (p.1, pyRound1 ((p.2 : ℚ) / (total_votes : ℚ) * 100))

/-- `log_contribution` (src/app.py lines 62-71): append one record whose
`block_id` is the current log length plus one. -/
def log_contribution (s : GameData) (node_id action impact : String) (t : Nat) : GameData :=
  { s with contribution_log :=
      s.contribution_log ++
        [{ block_id := s.contribution_log.length + 1, node_id := node_id,
           action := action, timestamp := t, impact := impact }] }

/-- `admin_login` (src/app.py lines 77-87). -/
def admin_login (s : GameData) (username password : String) :
    Except SwarmError Unit × GameData :=
  if username = "admin" ∧ password = "swarm123" then
    (.ok (), { s with admin_logged_in := true })
  else (.error .invalidCredentials, s)

/-- `create_game` (src/app.py lines 89-133).  Image persistence is an
external collaborator: the saved filename `img` and the uuid `gid` are
inputs.  Clears guesses, cached results and the ended and revealed flags,
installs the question, and logs; `game_active` and `players` are untouched. -/
def create_game (s : GameData) (gid img : String) (options : List String)
    (correct_answer : String) (t : Nat) : Except SwarmError Unit × GameData :=
  if s.admin_logged_in = false then (.error .adminNotLoggedIn, s)
  else
    let s1 := { s with
      current_game := some { id := gid, image := img, options := options,
                             correct_answer := correct_answer, created_at := t },
      guesses := [], swarm_results := [], game_ended := false, revealed := false }
    (.ok (), log_contribution s1 "ADMIN" "Created new game" "Game initialized" t)

/-- `start_game` (src/app.py lines 135-146): requires admin and an existing
question; sets `game_active` and logs.  No other field changes. -/
def start_game (s : GameData) (t : Nat) : Except SwarmError Unit × GameData :=
  if s.admin_logged_in = false then (.error .adminNotLoggedIn, s)
  else if s.current_game = none then (.error .noGameCreated, s)
  else (.ok (), log_contribution { s with game_active := true }
          "ADMIN" "Started game" "Game is now live" t)

/-- `end_game` (src/app.py lines 148-162): requires admin only; clears
`game_active`, sets `game_ended`, caches the confidence when the ledger is
non-empty, and logs. -/
def end_game (s : GameData) (t : Nat) : Except SwarmError Unit × GameData :=
  if s.admin_logged_in = false then (.error .adminNotLoggedIn, s)
  else
    let s1 := { s with game_active := false, game_ended := true }
    let s2 := if s1.guesses = [] then s1
              else { s1 with swarm_results := calculate_swarm_confidence s1.guesses }
    (.ok (), log_contribution s2 "ADMIN" "Ended game" "Game ended, ready for reveal" t)

/-- One row of `individual_results` (src/app.py lines 177-183). -/
structure IndividualResult where
  node_id : String
  player_name : String
  roll_number : String
  guess : String
  correct : Bool
deriving DecidableEq

/-- The loop of src/app.py lines 173-183: build one result row per guess.
`none` models the loop raising: a TypeError when `current_game` is `None`
(line 175, reached only when some guess exists) or a KeyError when a guess
references an unknown player (line 176). -/
def individual_results_of : List Guess → Option Game → List (String × Player) →
    Option (List IndividualResult)
  | [], _, _ => some []
  | g :: gs, game, players =>
    match game with
    | none => none
    | some gm =>
      match players.lookup g.node_id with
      | none => none
      | some p =>
        match individual_results_of gs (some gm) players with
        | none => none
        | some rest =>
          some ({ node_id := g.node_id, player_name := p.name,
                  roll_number := p.roll_number, guess := g.guess,
                  correct := g.guess == gm.correct_answer } :: rest)

/-- The unrounded swarm accuracy (src/app.py lines 186-188): fraction of
guesses matching the correct answer, times 100, and 0 for an empty ledger.
The `none` branch is unreachable from the call sites, which have already
raised on line 175 when guesses exist without a question. -/
def swarm_accuracy_of (s : GameData) : ℚ :=
  if s.guesses = [] then 0
  else
    match s.current_game with
    | none => 0
    | some g =>
      ((s.guesses.countP fun gu => gu.guess == g.correct_answer : ℚ) /
        (s.guesses.length : ℚ)) * 100

/-- The success payload of `reveal_answer` (src/app.py lines 195-202). -/
structure RevealPayload where
  individual_results : List IndividualResult
  swarm_accuracy : ℚ
  correct_answer : String
  swarm_confidence : List (String × ℚ)
  total_participants : Nat
deriving DecidableEq

/-- `reveal_answer` (src/app.py lines 164-202).  After the admin and
`game_ended` checks it builds the per-guess results (raising, with the
state still untouched, when that loop fails), then appends a log record and
sets `revealed`, and only then reads `current_game['correct_answer']` for
the response (line 199) — so with no question and an empty ledger the
handler fails with a TypeError after having mutated the state. -/
def reveal_answer (s : GameData) (t : Nat) :
    Except SwarmError RevealPayload × GameData :=
  if s.admin_logged_in = false then (.error .adminNotLoggedIn, s)
  else if s.game_ended = false then (.error .gameNotEnded, s)
  else
    match individual_results_of s.guesses s.current_game s.players with
    | none => (.error .internalFault, s)
    | some results =>
      let acc := swarm_accuracy_of s
      let s1 := { log_contribution s "ADMIN" "Revealed answer"
                    "Results and correct answer shown" t with revealed := true }
      match s.current_game with
      | none => (.error .internalFault, s1)
      | some g =>
        (.ok { individual_results := results, swarm_accuracy := pyRound1 acc,
               correct_answer := g.correct_answer,
               swarm_confidence := s.swarm_results,
               total_participants := s.guesses.length }, s1)

/-- The success payload of `join_game` (src/app.py lines 236-241). -/
structure JoinPayload where
  node_id : String
  roll_number : String
  avatar : String
deriving DecidableEq

/-- The fixed avatar cycle (src/app.py line 231). -/
def AVATARS : List String := ["🐝", "🤖", "🦾", "🐞", "🦋", "🕷️"]

/-- `join_game` (src/app.py lines 204-241).  Checks, in order: trimmed name
non-empty, trimmed roll non-empty, roll in the allowed set, roll not already
used; then registers the player under a freshly generated node id, logs, and
returns the id.  No phase field is consulted. -/
def join_game (s : GameData) (name roll_number : String) (t : Nat) :
    Except SwarmError JoinPayload × GameData :=
  let name := pyStrip name
  let roll_number := pyStrip roll_number
  if name = "" then (.error .validationError, s)
  else if roll_number = "" then (.error .validationError, s)
  else if (VALID_ROLL_NUMBERS.contains roll_number) = false then
    (.error .ineligibleRoster, s)
  else if s.players.any fun p => p.2.roll_number == roll_number then
    (.error .duplicateRegistration, s)
  else
    let node_id := node_id_for (s.players.length + 1)
    let avatar := AVATARS.getD (s.players.length % 6) ""
    let s1 := { s with players := s.players ++
                  [(node_id, { name := name, roll_number := roll_number,
                               joined_at := t, avatar := avatar })] }
    (.ok { node_id := node_id, roll_number := roll_number, avatar := avatar },
     log_contribution s1 node_id
       ("Joined as " ++ name ++ " (Roll: " ++ roll_number ++ ")")
       "New node added to swarm" t)

/-- The success payload of `submit_guess` (src/app.py lines 276-281). -/
structure SubmitPayload where
  swarm_confidence : List (String × ℚ)
  total_guesses : Nat
deriving DecidableEq

/-- `submit_guess` (src/app.py lines 243-281).  Checks, in order: the game
is active, both fields non-empty, the node id is registered, no prior guess
by that node; then appends the guess, logs, and returns the recomputed
confidence with the new total. -/
def submit_guess (s : GameData) (node_id guess : String) (t : Nat) :
    Except SwarmError SubmitPayload × GameData :=
  if s.game_active = false then (.error .sessionNotActive, s)
  else if node_id = "" ∨ guess = "" then (.error .validationError, s)
  else if (s.players.lookup node_id).isNone then (.error .unknownParticipant, s)
  else if s.guesses.any fun g => g.node_id == node_id then
    (.error .duplicateGuess, s)
  else
    let s1 := { s with guesses := s.guesses ++
                  [{ node_id := node_id, guess := guess, timestamp := t }] }
    (.ok { swarm_confidence := calculate_swarm_confidence s1.guesses,
           total_guesses := s1.guesses.length },
     log_contribution s1 node_id ("Submitted guess: " ++ guess)
       "Contribution added to swarm" t)

/-- The success payload of `get_swarm_results` (src/app.py lines 307-313). -/
structure ResultsPayload where
  swarm_confidence : List (String × ℚ)
  swarm_accuracy : ℚ
  correct_answer : String
  total_participants : Nat
deriving DecidableEq

/-- `get_swarm_results` (src/app.py lines 293-313): read-only; requires
ended and revealed; reads `current_game['correct_answer']`, so it raises
(without side effects) when no question is installed. -/
def get_swarm_results (s : GameData) : Except SwarmError ResultsPayload × GameData :=
  if s.game_ended = false then (.error .gameNotEnded, s)
  else if s.revealed = false then (.error .notRevealed, s)
  else
    match s.current_game with
    | none => (.error .internalFault, s)
    | some g =>
      (.ok { swarm_confidence := s.swarm_results,
             swarm_accuracy := pyRound1 (swarm_accuracy_of s),
             correct_answer := g.correct_answer,
             total_participants := s.guesses.length }, s)

/-- One row of `individual_accuracies` (src/app.py lines 367-372). -/
structure AccuracyEntry where
  node_id : String
  player_name : String
  roll_number : String
  accuracy : Nat
deriving DecidableEq

/-- The loop of src/app.py lines 363-372, with the same raising behaviour as
`individual_results_of`. -/
def individual_accuracies_of : List Guess → Option Game → List (String × Player) →
    Option (List AccuracyEntry)
  | [], _, _ => some []
  | g :: gs, game, players =>
    match game with
    | none => none
    | some gm =>
      match players.lookup g.node_id with
      | none => none
      | some p =>
        match individual_accuracies_of gs (some gm) players with
        | none => none
        | some rest =>
          some ({ node_id := g.node_id, player_name := p.name,
                  roll_number := p.roll_number,
                  accuracy := if g.guess == gm.correct_answer then 100 else 0 } :: rest)

/-- The success payload of `get_dashboard` (src/app.py lines 379-386). -/
structure DashboardPayload where
  individual_accuracies : List AccuracyEntry
  swarm_accuracy : ℚ
  contribution_log : List LogEntry
  total_participants : Nat
  swarm_confidence : List (String × ℚ)
deriving DecidableEq

/-- `get_dashboard` (src/app.py lines 353-386): read-only; requires ended
only (not revealed); `total_participants` is the number of guesses. -/
def get_dashboard (s : GameData) : Except SwarmError DashboardPayload × GameData :=
  if s.game_ended = false then (.error .gameNotEnded, s)
  else
    match individual_accuracies_of s.guesses s.current_game s.players with
    | none => (.error .internalFault, s)
    | some accs =>
      (.ok { individual_accuracies := accs,
             swarm_accuracy := pyRound1 (swarm_accuracy_of s),
             contribution_log := s.contribution_log,
             total_participants := s.guesses.length,
             swarm_confidence := s.swarm_results }, s)

/-- `reset_game` (src/app.py lines 393-409): requires admin; the
`game_data.update` call resets every field except `admin_logged_in` and —
notably — `revealed`, which is absent from the update dictionary. -/
def reset_game (s : GameData) : Except SwarmError Unit × GameData :=
  if s.admin_logged_in = false then (.error .adminNotLoggedIn, s)
  else
    (.ok (), { s with game_active := false, game_ended := false,
                      current_game := none, players := [], guesses := [],
                      swarm_results := [], contribution_log := [] })

/-- One request to the backend, with its external inputs (timestamps, the
uuid and stored filename for a new game). -/
inductive Op where
  | login (username password : String)
  | create (gid img : String) (options : List String) (ans : String) (t : Nat)
  | start (t : Nat)
  | endGame (t : Nat)
  | reveal (t : Nat)
  | join (name roll : String) (t : Nat)
  | submit (node guess : String) (t : Nat)
  | results
  | dashboard
  | reset
deriving DecidableEq

/-- The state after handling one request (the response is discarded). -/
def step (s : GameData) : Op → GameData
  | .login u p => (admin_login s u p).2
  | .create gid img options ans t => (create_game s gid img options ans t).2
  | .start t => (start_game s t).2
  | .endGame t => (end_game s t).2
  | .reveal t => (reveal_answer s t).2
  | .join name roll t => (join_game s name roll t).2
  | .submit node guess t => (submit_guess s node guess t).2
  | .results => (get_swarm_results s).2
  | .dashboard => (get_dashboard s).2
  | .reset => (reset_game s).2

/-- The state after a sequence of requests. -/
def exec (ops : List Op) (s : GameData) : GameData := ops.foldl step s

/-- A state the running process can actually be in: reached from the initial
`game_data` by some sequence of requests. -/
def Reachable (s : GameData) : Prop := ∃ ops, exec ops initial_game_data = s

/-! ### Correctness of the decimal renderer -/

/-- Value of a least-significant-first digit list. -/
def ofDigitsLSB : List Nat → Nat
  | [] => 0
  | d :: ds => d + 10 * ofDigitsLSB ds

theorem digitsAux_value : ∀ fuel n, n ≤ fuel → ofDigitsLSB (digitsAux fuel n) = n := by
  intro fuel
  induction fuel with
  | zero => intro n h; interval_cases n; rfl
  | succ fuel ih =>
    intro n h
    by_cases hn : n = 0
    · subst hn; simp [digitsAux, ofDigitsLSB]
    · have hdiv : n / 10 ≤ fuel := by
        have : n / 10 < n := Nat.div_lt_self (Nat.pos_of_ne_zero hn) (by omega)
        omega
      simp only [digitsAux, if_neg hn, ofDigitsLSB, ih (n / 10) hdiv]
      omega

theorem ofDigitsLSB_decDigits (n : Nat) : ofDigitsLSB (decDigits n) = n :=
  digitsAux_value n n le_rfl

theorem digitsAux_lt_ten : ∀ fuel n d, d ∈ digitsAux fuel n → d < 10 := by
  intro fuel
  induction fuel with
  | zero => intro n d h; simp [digitsAux] at h
  | succ fuel ih =>
    intro n d h
    by_cases hn : n = 0
    · subst hn; simp [digitsAux] at h
    · simp only [digitsAux, if_neg hn, List.mem_cons] at h
      rcases h with h | h
      · subst h; exact Nat.mod_lt _ (by omega)
      · exact ih _ _ h

/-- Read a digit string back as a number (most significant digit first). -/
def parseVal (cs : List Char) : Nat :=
  cs.foldl (fun acc c => 10 * acc + (c.toNat - 48)) 0

theorem decDigitChar_toNat (d : Nat) (h : d < 10) : (decDigitChar d).toNat = 48 + d := by
  interval_cases d <;> rfl

theorem parseVal_digit_chars :
    ∀ ds : List Nat, (∀ d ∈ ds, d < 10) →
      parseVal ((ds.map decDigitChar).reverse) = ofDigitsLSB ds := by
  intro ds hds
  unfold parseVal
  rw [List.foldl_reverse]
  induction ds with
  | nil => rfl
  | cons d ds ih =>
    simp only [List.map_cons, List.foldr_cons, ofDigitsLSB]
    rw [ih (fun x hx => hds x (List.mem_cons_of_mem _ hx))]
    rw [decDigitChar_toNat d (hds d (List.mem_cons_self _ _))]
    omega

theorem parseVal_natRepr (n : Nat) : parseVal (natRepr n).data = n := by
  by_cases hn : n = 0
  · subst hn; rfl
  · unfold natRepr
    rw [if_neg hn]
    show parseVal ((decDigits n).reverse.map decDigitChar) = n
    rw [List.map_reverse, parseVal_digit_chars (decDigits n)
      (fun d hd => digitsAux_lt_ten n n d hd),
      ofDigitsLSB_decDigits]

theorem parseVal_zeros : ∀ k cs, parseVal (List.replicate k '0' ++ cs) = parseVal cs := by
  intro k
  induction k with
  | zero => intro cs; rfl
  | succ k ih =>
    intro cs
    show parseVal ('0' :: (List.replicate k '0' ++ cs)) = parseVal cs
    unfold parseVal
    simp only [List.foldl_cons]
    exact ih cs

theorem parseVal_zfill2 (s : String) : parseVal (zfill2 s).data = parseVal s.data := by
  unfold zfill2
  by_cases h : 2 ≤ s.length
  · rw [if_pos h]
  · rw [if_neg h]
    show parseVal (String.mk (List.replicate (2 - s.length) '0') ++ s).data = _
    rw [String.data_append]
    exact parseVal_zeros _ _

theorem node_id_for_injective : Function.Injective node_id_for := by
  intro a b h
  unfold node_id_for at h
  have hdata := congrArg String.data h
  rw [String.data_append, String.data_append] at hdata
  have htail := List.append_cancel_left hdata
  have : parseVal (zfill2 (natRepr a)).data = parseVal (zfill2 (natRepr b)).data := by
    rw [htail]
  rwa [parseVal_zfill2, parseVal_zfill2, parseVal_natRepr, parseVal_natRepr] at this

/-! ### The reachable-state invariant -/

theorem lookup_isSome_iff (l : List (String × Player)) (k : String) :
    (l.lookup k).isSome = true ↔ k ∈ l.map Prod.fst := by
  induction l with
  | nil => simp [List.lookup]
  | cons p rest ih =>
    obtain ⟨a, b⟩ := p
    by_cases hk : k = a
    · subst hk; simp [List.lookup]
    · have hba : (k == a) = false := by simp [hk]
      simp [List.lookup, hba, ih, hk]

/-- The structural invariant of every reachable `game_data` state: the
registry keys are exactly the generated node ids in registration order, the
ledger holds at most one guess per node id, and every guess references a
registered, non-empty node id. -/
structure StateInv (s : GameData) : Prop where
  keys_canonical : s.players.map Prod.fst =
    (List.range s.players.length).map fun i => node_id_for (i + 1)
  guesses_nodup : (s.guesses.map Guess.node_id).Nodup
  guesses_registered : ∀ g ∈ s.guesses, (s.players.lookup g.node_id).isSome = true
  guesses_nonempty : ∀ g ∈ s.guesses, g.node_id ≠ ""

theorem inv_initial : StateInv initial_game_data := by
  constructor <;> simp [initial_game_data]

theorem inv_login (s : GameData) (u p : String) (h : StateInv s) :
    StateInv (admin_login s u p).2 := by
  unfold admin_login
  split
  · exact ⟨h.keys_canonical, h.guesses_nodup, h.guesses_registered, h.guesses_nonempty⟩
  · exact h

theorem inv_create (s : GameData) (gid img : String) (options : List String)
    (ans : String) (t : Nat) (h : StateInv s) :
    StateInv (create_game s gid img options ans t).2 := by
  unfold create_game log_contribution
  dsimp only
  split
  · exact h
  · exact ⟨h.keys_canonical, by simp, by simp, by simp⟩

theorem inv_start (s : GameData) (t : Nat) (h : StateInv s) :
    StateInv (start_game s t).2 := by
  unfold start_game log_contribution
  dsimp only
  split
  · exact h
  · split
    · exact h
    · exact ⟨h.keys_canonical, h.guesses_nodup, h.guesses_registered, h.guesses_nonempty⟩

theorem inv_end (s : GameData) (t : Nat) (h : StateInv s) :
    StateInv (end_game s t).2 := by
  unfold end_game log_contribution
  dsimp only
  split
  · exact h
  · split
    · exact ⟨h.keys_canonical, h.guesses_nodup, h.guesses_registered, h.guesses_nonempty⟩
    · exact ⟨h.keys_canonical, h.guesses_nodup, h.guesses_registered, h.guesses_nonempty⟩

theorem inv_reveal (s : GameData) (t : Nat) (h : StateInv s) :
    StateInv (reveal_answer s t).2 := by
  unfold reveal_answer log_contribution
  dsimp only
  split
  · exact h
  · split
    · exact h
    · split
      · exact h
      · split
        · exact ⟨h.keys_canonical, h.guesses_nodup, h.guesses_registered, h.guesses_nonempty⟩
        · exact ⟨h.keys_canonical, h.guesses_nodup, h.guesses_registered, h.guesses_nonempty⟩

theorem inv_results (s : GameData) (h : StateInv s) : StateInv (get_swarm_results s).2 := by
  unfold get_swarm_results
  split
  · exact h
  · split
    · exact h
    · split
      · exact h
      · exact h

theorem inv_dashboard (s : GameData) (h : StateInv s) : StateInv (get_dashboard s).2 := by
  unfold get_dashboard
  split
  · exact h
  · split
    · exact h
    · exact h

theorem inv_reset (s : GameData) (h : StateInv s) : StateInv (reset_game s).2 := by
  unfold reset_game
  split
  · exact h
  · exact ⟨by simp, by simp, by simp, by simp⟩

theorem inv_join (s : GameData) (name roll : String) (t : Nat) (h : StateInv s) :
    StateInv (join_game s name roll t).2 := by
  unfold join_game log_contribution
  dsimp only
  split
  · exact h
  · split
    · exact h
    · split
      · exact h
      · split
        · exact h
        · refine ⟨?_, h.guesses_nodup, ?_, h.guesses_nonempty⟩
          · show (s.players ++ [_]).map Prod.fst = _
            rw [List.map_append, List.length_append, h.keys_canonical]
            simp [List.range_succ]
          · intro g hg
            show ((s.players ++ [_]).lookup g.node_id).isSome = true
            rw [lookup_isSome_iff, List.map_append]
            exact List.mem_append_left _
              ((lookup_isSome_iff s.players g.node_id).mp (h.guesses_registered g hg))

theorem inv_submit (s : GameData) (node guess : String) (t : Nat) (h : StateInv s) :
    StateInv (submit_guess s node guess t).2 := by
  unfold submit_guess log_contribution
  dsimp only
  split
  · exact h
  · split
    · exact h
    · next hvalid =>
      split
      · exact h
      · next hlookup =>
        split
        · exact h
        · next hdup =>
          have hnode_some : (s.players.lookup node).isSome = true := by
            rw [Bool.not_eq_true, Option.isNone_eq_false_iff] at hlookup
            exact hlookup
          have hnode_ne : node ≠ "" := fun hcontra => hvalid (Or.inl hcontra)
          have hnotin : ∀ g ∈ s.guesses, g.node_id ≠ node := by
            intro g hg
            rw [Bool.not_eq_true, List.any_eq_false] at hdup
            simpa using hdup g hg
          refine ⟨h.keys_canonical, ?_, ?_, ?_⟩
          · show ((s.guesses ++ [_]).map Guess.node_id).Nodup
            rw [List.map_append, List.nodup_append]
            refine ⟨h.guesses_nodup, by simp, ?_⟩
            intro x hx
            simp only [List.map_cons, List.map_nil, List.mem_singleton]
            intro hxn
            rw [List.mem_map] at hx
            obtain ⟨g, hg, hgn⟩ := hx
            exact hnotin g hg (by rw [hgn, hxn])
          · intro g hg
            rw [List.mem_append] at hg
            rcases hg with hg | hg
            · exact h.guesses_registered g hg
            · simp only [List.mem_singleton] at hg
              subst hg
              exact hnode_some
          · intro g hg
            rw [List.mem_append] at hg
            rcases hg with hg | hg
            · exact h.guesses_nonempty g hg
            · simp only [List.mem_singleton] at hg
              subst hg
              exact hnode_ne

theorem inv_step (s : GameData) (op : Op) (h : StateInv s) : StateInv (step s op) := by
  cases op with
  | login u p => exact inv_login s u p h
  | create gid img options ans t => exact inv_create s gid img options ans t h
  | start t => exact inv_start s t h
  | endGame t => exact inv_end s t h
  | reveal t => exact inv_reveal s t h
  | join name roll t => exact inv_join s name roll t h
  | submit node guess t => exact inv_submit s node guess t h
  | results => exact inv_results s h
  | dashboard => exact inv_dashboard s h
  | reset => exact inv_reset s h

theorem inv_exec (ops : List Op) : ∀ s, StateInv s → StateInv (exec ops s) := by
  induction ops with
  | nil => intro s h; exact h
  | cons op ops ih =>
    intro s h
    rw [exec, List.foldl_cons]
    exact ih (step s op) (inv_step s op h)

theorem reachable_inv (s : GameData) (h : Reachable s) : StateInv s := by
  obtain ⟨ops, hops⟩ := h
  rw [← hops]
  exact inv_exec ops initial_game_data inv_initial

/-! ### Failed calls leave the state unchanged (structured failures) -/

theorem login_err_frame (s : GameData) (u p : String) (e : SwarmError) (s2 : GameData)
    (h : admin_login s u p = (.error e, s2)) : s2 = s := by
  unfold admin_login at h
  split at h
  · simp at h
  · exact (congrArg Prod.snd h).symm

theorem create_err_frame (s : GameData) (gid img : String) (options : List String)
    (ans : String) (t : Nat) (e : SwarmError) (s2 : GameData)
    (h : create_game s gid img options ans t = (.error e, s2)) : s2 = s := by
  unfold create_game at h
  dsimp only at h
  split at h
  · exact (congrArg Prod.snd h).symm
  · simp at h

theorem start_err_frame (s : GameData) (t : Nat) (e : SwarmError) (s2 : GameData)
    (h : start_game s t = (.error e, s2)) : s2 = s := by
  unfold start_game at h
  split at h
  · exact (congrArg Prod.snd h).symm
  · split at h
    · exact (congrArg Prod.snd h).symm
    · simp at h

theorem end_err_frame (s : GameData) (t : Nat) (e : SwarmError) (s2 : GameData)
    (h : end_game s t = (.error e, s2)) : s2 = s := by
  unfold end_game at h
  dsimp only at h
  split at h
  · exact (congrArg Prod.snd h).symm
  · simp at h

theorem reveal_err_frame (s : GameData) (t : Nat) (e : SwarmError) (s2 : GameData)
    (h : reveal_answer s t = (.error e, s2)) (hnotfault : e ≠ SwarmError.internalFault) :
    s2 = s := by
  unfold reveal_answer at h
  dsimp only at h
  split at h
  · exact (congrArg Prod.snd h).symm
  · split at h
    · exact (congrArg Prod.snd h).symm
    · split at h
      · have := congrArg Prod.fst h
        simp only [] at this
        cases this
        exact absurd rfl hnotfault
      · split at h
        · have := congrArg Prod.fst h
          simp only [] at this
          cases this
          exact absurd rfl hnotfault
        · simp at h

theorem join_err_frame (s : GameData) (name roll : String) (t : Nat) (e : SwarmError)
    (s2 : GameData) (h : join_game s name roll t = (.error e, s2)) : s2 = s := by
  unfold join_game at h
  dsimp only at h
  split at h
  · exact (congrArg Prod.snd h).symm
  · split at h
    · exact (congrArg Prod.snd h).symm
    · split at h
      · exact (congrArg Prod.snd h).symm
      · split at h
        · exact (congrArg Prod.snd h).symm
        · simp at h

theorem submit_err_frame (s : GameData) (node guess : String) (t : Nat) (e : SwarmError)
    (s2 : GameData) (h : submit_guess s node guess t = (.error e, s2)) : s2 = s := by
  unfold submit_guess at h
  dsimp only at h
  split at h
  · exact (congrArg Prod.snd h).symm
  · split at h
    · exact (congrArg Prod.snd h).symm
    · split at h
      · exact (congrArg Prod.snd h).symm
      · split at h
        · exact (congrArg Prod.snd h).symm
        · simp at h

theorem results_err_frame (s : GameData) (e : SwarmError) (s2 : GameData)
    (h : get_swarm_results s = (.error e, s2)) : s2 = s := by
  unfold get_swarm_results at h
  split at h
  · exact (congrArg Prod.snd h).symm
  · split at h
    · exact (congrArg Prod.snd h).symm
    · split at h
      · exact (congrArg Prod.snd h).symm
      · simp at h

theorem dashboard_err_frame (s : GameData) (e : SwarmError) (s2 : GameData)
    (h : get_dashboard s = (.error e, s2)) : s2 = s := by
  unfold get_dashboard at h
  split at h
  · exact (congrArg Prod.snd h).symm
  · split at h
    · exact (congrArg Prod.snd h).symm
    · simp at h

theorem reset_err_frame (s : GameData) (e : SwarmError) (s2 : GameData)
    (h : reset_game s = (.error e, s2)) : s2 = s := by
  unfold reset_game at h
  split at h
  · exact (congrArg Prod.snd h).symm
  · simp at h

/-! ### Correctness of the vote tally -/

theorem bump_lookup (l : List (String × Nat)) (k k' : String) :
    (bump l k).lookup k' =
      if k' = k then some (((l.lookup k').getD 0) + 1) else l.lookup k' := by
  induction l with
  | nil =>
    by_cases hk : k' = k
    · subst hk; simp [bump, List.lookup]
    · have : (k' == k) = false := by simp [hk]
      simp [bump, List.lookup, this, hk]
  | cons p rest ih =>
    obtain ⟨a, c⟩ := p
    by_cases hak : a = k
    · subst hak
      by_cases hk : k' = a
      · subst hk; simp [bump, List.lookup]
      · have : (k' == a) = false := by simp [hk]
        simp [bump, List.lookup, this, hk]
    · by_cases hk : k' = a
      · subst hk
        have hne : ¬(k' = k) := hak
        simp [bump, List.lookup, hak, hne]
      · have hba : (k' == a) = false := by simp [hk]
        simp [bump, List.lookup, hak, hba, ih]

theorem bump_sum (l : List (String × Nat)) (k : String) :
    ((bump l k).map Prod.snd).sum = (l.map Prod.snd).sum + 1 := by
  induction l with
  | nil => simp [bump]
  | cons p rest ih =>
    obtain ⟨a, c⟩ := p
    by_cases hak : a = k
    · simp [bump, hak]
      omega
    · simp [bump, hak, ih]
      omega

theorem bump_keys (l : List (String × Nat)) (k k' : String) :
    k' ∈ (bump l k).map Prod.fst ↔ k' ∈ l.map Prod.fst ∨ k' = k := by
  induction l with
  | nil => simp [bump]
  | cons p rest ih =>
    obtain ⟨a, c⟩ := p
    by_cases hak : a = k
    · subst hak
      simp [bump]
      tauto
    · simp [bump, hak, ih]
      tauto

/-- The `vote_counts` dictionary of `calculate_swarm_confidence`. -/
def tally (gs : List Guess) : List (String × Nat) :=
  gs.foldl (fun m g => bump m g.guess) []

theorem tally_foldl_lookup (gs : List Guess) :
    ∀ acc k, ((gs.foldl (fun m g => bump m g.guess) acc).lookup k).getD 0 =
      (acc.lookup k).getD 0 + (gs.map Guess.guess).count k := by
  induction gs with
  | nil => intro acc k; simp
  | cons g gs ih =>
    intro acc k
    rw [List.foldl_cons, ih, bump_lookup]
    by_cases hk : k = g.guess
    · subst hk
      simp [List.count_cons]
      omega
    · have : (g.guess == k) = false := by
        simp only [beq_eq_false_iff_ne, ne_eq]
        exact fun hc => hk hc.symm
      simp [List.count_cons, this, hk]

theorem tally_foldl_sum (gs : List Guess) :
    ∀ acc, ((gs.foldl (fun m g => bump m g.guess) acc).map Prod.snd).sum =
      (acc.map Prod.snd).sum + gs.length := by
  induction gs with
  | nil => intro acc; simp
  | cons g gs ih =>
    intro acc
    rw [List.foldl_cons, ih, bump_sum]
    simp only [List.length_cons]
    omega

theorem tally_foldl_keys (gs : List Guess) :
    ∀ acc k, (k ∈ (gs.foldl (fun m g => bump m g.guess) acc).map Prod.fst ↔
      k ∈ acc.map Prod.fst ∨ k ∈ gs.map Guess.guess) := by
  induction gs with
  | nil => intro acc k; simp
  | cons g gs ih =>
    intro acc k
    rw [List.foldl_cons, ih, bump_keys]
    simp
    tauto

theorem lookup_isSome_iff_mem_keys {β : Type} (l : List (String × β)) (k : String) :
    (l.lookup k).isSome = true ↔ k ∈ l.map Prod.fst := by
  induction l with
  | nil => simp [List.lookup]
  | cons p rest ih =>
    obtain ⟨a, b⟩ := p
    by_cases hk : k = a
    · subst hk; simp [List.lookup]
    · have hba : (k == a) = false := by simp [hk]
      simp [List.lookup, hba, ih, hk]

theorem lookup_map_snd (l : List (String × Nat)) (f : String → Nat → ℚ) (k : String) :
    (l.map fun p => (p.1, f p.1 p.2)).lookup k = (l.lookup k).map (f k) := by
  induction l with
  | nil => simp [List.lookup]
  | cons p rest ih =>
    obtain ⟨a, c⟩ := p
    by_cases hk : k = a
    · subst hk; simp [List.lookup]
    · have hba : (k == a) = false := by simp [hk]
      simp [List.lookup, hba, ih]

theorem tally_lookup_count (gs : List Guess) (k : String) :
    ((tally gs).lookup k).getD 0 = (gs.map Guess.guess).count k := by
  have := tally_foldl_lookup gs [] k
  simpa [tally] using this

theorem tally_sum_length (gs : List Guess) :
    ((tally gs).map Prod.snd).sum = gs.length := by
  have := tally_foldl_sum gs []
  simpa [tally] using this

theorem tally_keys_mem (gs : List Guess) (k : String) :
    k ∈ (tally gs).map Prod.fst ↔ k ∈ gs.map Guess.guess := by
  have := tally_foldl_keys gs [] k
  simpa [tally] using this

/-! ### Per-guess results, sequential joins, and counting -/

theorem individual_results_of_spec (gm : Game) (players : List (String × Player)) :
    ∀ gs : List Guess, (∀ g ∈ gs, (players.lookup g.node_id).isSome = true) →
      ∃ l, individual_results_of gs (some gm) players = some l ∧
        List.Forall₂ (fun (g : Guess) (r : IndividualResult) =>
          r.node_id = g.node_id ∧ r.guess = g.guess ∧
          r.correct = (g.guess == gm.correct_answer)) gs l := by
  intro gs
  induction gs with
  | nil => intro _; exact ⟨[], rfl, List.Forall₂.nil⟩
  | cons g gs ih =>
    intro hreg
    obtain ⟨p, hp⟩ := Option.isSome_iff_exists.mp (hreg g (List.mem_cons_self _ _))
    obtain ⟨l, hl, hall⟩ := ih fun g' hg' => hreg g' (List.mem_cons_of_mem _ hg')
    refine ⟨(IndividualResult.mk g.node_id p.name p.roll_number g.guess
        (g.guess == gm.correct_answer)) :: l, ?_,
      List.Forall₂.cons ⟨rfl, rfl, rfl⟩ hall⟩
    simp only [individual_results_of, hp, hl]

/-- Run a telescope of registrations, returning the final state and the
response of each one. -/
def run_joins : GameData → List (String × String × Nat) →
    GameData × List (Except SwarmError JoinPayload)
  | s, [] => (s, [])
  | s, (name, roll, t) :: rest =>
    let r := join_game s name roll t
    let out := run_joins r.2 rest
    (out.1, r.1 :: out.2)

/-- The node ids handed out by the successful responses, in order. -/
def assigned_ids (rs : List (Except SwarmError JoinPayload)) : List String :=
  rs.filterMap fun r => match r with
    | .ok p => some p.node_id
    | .error _ => none

theorem join_ok_shape (s : GameData) (name roll : String) (t : Nat)
    (p : JoinPayload) (s2 : GameData) (h : join_game s name roll t = (.ok p, s2)) :
    p.node_id = node_id_for (s.players.length + 1) ∧
      s2.players.length = s.players.length + 1 := by
  unfold join_game at h
  dsimp only at h
  split at h
  · simp at h
  · split at h
    · simp at h
    · split at h
      · simp at h
      · split at h
        · simp at h
        · refine ⟨?_, ?_⟩
          · have := congrArg Prod.fst h
            simp only [] at this
            cases this
            rfl
          · have := congrArg Prod.snd h
            simp only [] at this
            cases this
            simp [log_contribution]

theorem run_joins_ids (inputs : List (String × String × Nat)) :
    ∀ s : GameData, (∀ r ∈ (run_joins s inputs).2, r.isOk = true) →
      assigned_ids (run_joins s inputs).2 =
        (List.range' (s.players.length + 1) inputs.length).map node_id_for := by
  induction inputs with
  | nil => intro s _; rfl
  | cons i rest ih =>
    obtain ⟨name, roll, t⟩ := i
    intro s hok
    have hhead : (join_game s name roll t).1.isOk = true := by
      have := hok (join_game s name roll t).1
      apply this
      show _ ∈ (run_joins s ((name, roll, t) :: rest)).2
      unfold run_joins
      exact List.mem_cons_self _ _
    obtain ⟨p, hp⟩ : ∃ p, (join_game s name roll t).1 = .ok p := by
      cases hj : (join_game s name roll t).1 with
      | ok p => exact ⟨p, rfl⟩
      | error e => rw [hj] at hhead; simp [Except.isOk, Except.toBool] at hhead
    have hpair : join_game s name roll t = (.ok p, (join_game s name roll t).2) := by
      rw [← hp]
    obtain ⟨hid, hlen⟩ := join_ok_shape s name roll t p _ hpair
    have htail : ∀ r ∈ (run_joins (join_game s name roll t).2 rest).2, r.isOk = true := by
      intro r hr
      apply hok
      show r ∈ (run_joins s ((name, roll, t) :: rest)).2
      unfold run_joins
      exact List.mem_cons_of_mem _ hr
    have := ih (join_game s name roll t).2 htail
    show assigned_ids ((join_game s name roll t).1 :: (run_joins (join_game s name roll t).2 rest).2) = _
    rw [hp]
    show p.node_id :: assigned_ids (run_joins (join_game s name roll t).2 rest).2 = _
    rw [this, hlen, hid]
    simp only [List.length_cons]
    rw [List.range'_succ, List.map_cons]

theorem length_lt_of_missing (guessIds keys : List String) (hnd : guessIds.Nodup)
    (hsub : ∀ x ∈ guessIds, x ∈ keys) (k : String)
    (hk : k ∈ keys) (hkn : k ∉ guessIds) : guessIds.length < keys.length := by
  have hsub' : guessIds ⊆ keys.erase k := by
    intro x hx
    have hne : x ≠ k := by
      intro hc
      subst hc
      exact hkn hx
    exact (List.mem_erase_of_ne hne).mpr (hsub x hx)
  have hle : guessIds.length ≤ (keys.erase k).length :=
    (hnd.subperm hsub').length_le
  have herase : (keys.erase k).length = keys.length - 1 := List.length_erase_of_mem hk
  have hpos : 0 < keys.length := List.length_pos.mpr (List.ne_nil_of_mem hk)
  omega

/-! ### Claim theorems -/

theorem confidence_lookup (gs : List Guess) (hne : gs ≠ []) (v : String) :
    (calculate_swarm_confidence gs).lookup v =
      ((tally gs).lookup v).map fun c => pyRound1 ((c : ℚ) / (gs.length : ℚ) * 100) := by
  unfold calculate_swarm_confidence
  rw [if_neg hne]
  show ((tally gs).map fun p =>
      (p.1, pyRound1 ((p.2 : ℚ) / ((((tally gs).map Prod.snd).sum : Nat) : ℚ) * 100))).lookup v = _
  simp only [tally_sum_length]
  induction tally gs with
  | nil => simp [List.lookup]
  | cons p rest ih =>
    obtain ⟨a, c⟩ := p
    by_cases hk : v = a
    · subst hk; simp [List.lookup]
    · have hba : (v == a) = false := by simp [hk]
      simp only [List.map_cons, List.lookup, hba, ih]

/-- C9: the aggregation maps each distinct guess value to
round(count / total * 100, 1 decimal) with total the ledger length, values
absent from the ledger are absent from the mapping, the empty ledger yields
the empty mapping, and the ledger with values A, A, B yields 66.7 percent
for A and 33.3 percent for B. -/
theorem swarm_confidence_spec :
    calculate_swarm_confidence [] = [] ∧
    (∀ (gs : List Guess) (v : String), v ∈ gs.map Guess.guess →
      (calculate_swarm_confidence gs).lookup v =
        some (pyRound1 (((gs.map Guess.guess).count v : ℚ) / (gs.length : ℚ) * 100))) ∧
    (∀ (gs : List Guess) (v : String), v ∉ gs.map Guess.guess →
      (calculate_swarm_confidence gs).lookup v = none) ∧
    calculate_swarm_confidence
        [⟨"n1", "A", 0⟩, ⟨"n2", "A", 1⟩, ⟨"n3", "B", 2⟩] =
      [("A", 667 / 10), ("B", 333 / 10)] := by
  refine ⟨rfl, ?_, ?_, by decide⟩
  · intro gs v hv
    have hne : gs ≠ [] := by
      intro hcontra
      subst hcontra
      simp at hv
    rw [confidence_lookup gs hne v]
    have hsome : ((tally gs).lookup v).isSome = true := by
      rw [lookup_isSome_iff_mem_keys, tally_keys_mem]
      exact hv
    obtain ⟨c, hc⟩ := Option.isSome_iff_exists.mp hsome
    have hcount : c = (gs.map Guess.guess).count v := by
      have := tally_lookup_count gs v
      rw [hc] at this
      simpa using this
    rw [hc, hcount]
    rfl
  · intro gs v hv
    by_cases hne : gs = []
    · subst hne; rfl
    · rw [confidence_lookup gs hne v]
      have hnone : (tally gs).lookup v = none := by
        rw [← Option.not_isSome_iff_eq_none]
        rw [Bool.not_eq_true, ← Bool.not_eq_true, lookup_isSome_iff_mem_keys, tally_keys_mem]
        exact hv
      rw [hnone]
      rfl

/-- C9 witness: the middle components applied to the concrete ledger A, A, B. -/
theorem swarm_confidence_spec_witness :
    ("A" ∈ ([⟨"n1", "A", 0⟩, ⟨"n2", "A", 1⟩, ⟨"n3", "B", 2⟩] : List Guess).map Guess.guess) ∧
    (calculate_swarm_confidence [⟨"n1", "A", 0⟩, ⟨"n2", "A", 1⟩, ⟨"n3", "B", 2⟩]).lookup "A" =
      some (pyRound1 (((([⟨"n1", "A", 0⟩, ⟨"n2", "A", 1⟩, ⟨"n3", "B", 2⟩] : List Guess).map
          Guess.guess).count "A" : ℚ) /
        (([⟨"n1", "A", 0⟩, ⟨"n2", "A", 1⟩, ⟨"n3", "B", 2⟩] : List Guess).length : ℚ) * 100)) :=
  ⟨by decide, swarm_confidence_spec.2.1 _ "A" (by decide)⟩

/-- C7: whenever the session is not active, submitting fails with the
session-not-active error and the state (in particular the ledger) is
unchanged, whatever the other inputs are — so the phase check precedes the
validation, registration and duplicate checks. -/
theorem submit_requires_active (s : GameData) (node guess : String) (t : Nat)
    (h : s.game_active = false) :
    submit_guess s node guess t = (.error .sessionNotActive, s) := by
  unfold submit_guess
  dsimp only
  rw [if_pos h]

/-- C7 witness: a submit with empty fields in the initial (inactive) state
still reports the session error and leaves the state intact. -/
theorem submit_requires_active_witness :
    initial_game_data.game_active = false ∧
    submit_guess initial_game_data "" "" 0 =
      (.error .sessionNotActive, initial_game_data) :=
  ⟨rfl, submit_requires_active initial_game_data "" "" 0 rfl⟩

/-- C3, amended: every operation that returns a structured failure response
leaves the shared state exactly as it was; the unhandled-exception path of
reveal_answer is the only failing outcome that can leave partial writes. -/
theorem structured_failures_have_no_side_effects :
    (∀ s u p e s2, admin_login s u p = (.error e, s2) → s2 = s) ∧
    (∀ s gid img options ans t e s2,
      create_game s gid img options ans t = (.error e, s2) → s2 = s) ∧
    (∀ s t e s2, start_game s t = (.error e, s2) → s2 = s) ∧
    (∀ s t e s2, end_game s t = (.error e, s2) → s2 = s) ∧
    (∀ s t e s2, reveal_answer s t = (.error e, s2) →
      e ≠ SwarmError.internalFault → s2 = s) ∧
    (∀ s name roll t e s2, join_game s name roll t = (.error e, s2) → s2 = s) ∧
    (∀ s node guess t e s2, submit_guess s node guess t = (.error e, s2) → s2 = s) ∧
    (∀ s e s2, get_swarm_results s = (.error e, s2) → s2 = s) ∧
    (∀ s e s2, get_dashboard s = (.error e, s2) → s2 = s) ∧
    (∀ s e s2, reset_game s = (.error e, s2) → s2 = s) :=
  ⟨login_err_frame, create_err_frame, start_err_frame, end_err_frame,
   reveal_err_frame, join_err_frame, submit_err_frame, results_err_frame,
   dashboard_err_frame, reset_err_frame⟩

/-- C3 witness: three concrete structured failures with unchanged state. -/
theorem structured_failures_witness :
    (join_game initial_game_data "" "250" 0).2 = initial_game_data ∧
    (submit_guess initial_game_data "Node_01" "A" 0).2 = initial_game_data ∧
    (reveal_answer initial_game_data 0).2 = initial_game_data :=
  ⟨structured_failures_have_no_side_effects.2.2.2.2.2.1 initial_game_data "" "250" 0
      SwarmError.validationError _ (by decide),
   structured_failures_have_no_side_effects.2.2.2.2.2.2.1 initial_game_data "Node_01" "A" 0
      SwarmError.sessionNotActive _ (by decide),
   structured_failures_have_no_side_effects.2.2.2.2.1 initial_game_data 0
      SwarmError.adminNotLoggedIn _ (by decide) (by decide)⟩

/-- C3 counterexample: from the reachable state after admin login and
end_game (no question was ever created), reveal_answer fails with an
unhandled exception yet has already appended a log record and set the
revealed flag — a failed call with partial writes. -/
theorem failed_reveal_mutates_state_counterexample :
    ((reveal_answer (exec [.login "admin" "swarm123", .endGame 1]
        initial_game_data) 2).1 = .error .internalFault) ∧
    ((reveal_answer (exec [.login "admin" "swarm123", .endGame 1]
        initial_game_data) 2).2 ≠
      exec [.login "admin" "swarm123", .endGame 1] initial_game_data) ∧
    ((reveal_answer (exec [.login "admin" "swarm123", .endGame 1]
        initial_game_data) 2).2.revealed = true) ∧
    ((exec [.login "admin" "swarm123", .endGame 1] initial_game_data).revealed
      = false) := by
  refine ⟨by decide, by decide, by decide, by decide⟩

/-- C5, amended: the session phase does not gate registration at all — in
every state, a registration with a non-empty trimmed name and an eligible,
unused roll number is accepted, whatever the phase fields hold. -/
theorem join_ignores_phase (s : GameData) (name roll : String) (t : Nat)
    (h1 : pyStrip name ≠ "")
    (h2 : VALID_ROLL_NUMBERS.contains (pyStrip roll) = true)
    (h3 : ∀ p ∈ s.players, p.2.roll_number ≠ pyStrip roll) :
    (join_game s name roll t).1.isOk = true := by
  have hroll_ne : pyStrip roll ≠ "" := by
    intro hcontra
    rw [hcontra] at h2
    exact absurd h2 (by decide)
  have hdup : (s.players.any fun p => p.2.roll_number == pyStrip roll) = false := by
    rw [List.any_eq_false]
    intro p hp
    simpa using h3 p hp
  unfold join_game
  dsimp only
  rw [if_neg h1, if_neg hroll_ne, if_neg (by rw [h2]; decide),
    if_neg (by rw [hdup]; decide)]
  rfl

/-- C5 counterexample: one fixed, otherwise-valid registration is accepted
in reachable states of all five phases (no game, created, active, ended,
revealed) — no phase rejects joins. -/
theorem phase_gates_join_counterexample :
    (join_game initial_game_data "Alice" "250" 9).1.isOk = true ∧
    (join_game (exec [.login "admin" "swarm123",
        .create "g1" "i.png" ["A", "B"] "B" 0] initial_game_data)
      "Alice" "250" 9).1.isOk = true ∧
    (join_game (exec [.login "admin" "swarm123",
        .create "g1" "i.png" ["A", "B"] "B" 0, .start 1] initial_game_data)
      "Alice" "250" 9).1.isOk = true ∧
    (join_game (exec [.login "admin" "swarm123",
        .create "g1" "i.png" ["A", "B"] "B" 0, .start 1, .endGame 2]
        initial_game_data) "Alice" "250" 9).1.isOk = true ∧
    (join_game (exec [.login "admin" "swarm123",
        .create "g1" "i.png" ["A", "B"] "B" 0, .start 1, .endGame 2, .reveal 3]
        initial_game_data) "Alice" "250" 9).1.isOk = true := by
  refine ⟨by decide, by decide, by decide, by decide, by decide⟩

/-- C5 witness: the amended theorem applied in the active-phase state. -/
theorem join_ignores_phase_witness :
    (join_game (exec [.login "admin" "swarm123",
        .create "g1" "i.png" ["A", "B"] "B" 0, .start 1] initial_game_data)
      "Alice" "250" 9).1.isOk = true :=
  join_ignores_phase _ "Alice" "250" 9 (by decide) (by decide) (by decide)

/-- C1, amended: a successful create by a logged-in admin installs the
Question, clears the Guess Ledger, the cached results and the ended and
revealed flags, appends one record to the Activity Log, and leaves the
Participant Registry and the `game_active` flag unchanged — so when the
session was Active it keeps accepting guesses without a new start(). -/
theorem create_game_effects (s : GameData) (gid img : String)
    (options : List String) (ans : String) (t : Nat)
    (h : s.admin_logged_in = true) :
    create_game s gid img options ans t =
      (.ok (), { s with
        current_game := some { id := gid, image := img, options := options,
                               correct_answer := ans, created_at := t },
        guesses := [], swarm_results := [], game_ended := false,
        revealed := false,
        contribution_log := s.contribution_log ++
          [{ block_id := s.contribution_log.length + 1, node_id := "ADMIN",
             action := "Created new game", timestamp := t,
             impact := "Game initialized" }] }) := by
  unfold create_game log_contribution
  rw [if_neg (by rw [h]; decide)]

/-- C1 witness: the amended theorem applied in the logged-in initial state. -/
theorem create_game_effects_witness :
    create_game (exec [.login "admin" "swarm123"] initial_game_data)
        "g2" "i2.png" ["A"] "A" 7 =
      (.ok (), { exec [.login "admin" "swarm123"] initial_game_data with
        current_game := some { id := "g2", image := "i2.png", options := ["A"],
                               correct_answer := "A", created_at := 7 },
        guesses := [], swarm_results := [], game_ended := false,
        revealed := false,
        contribution_log :=
          (exec [.login "admin" "swarm123"] initial_game_data).contribution_log ++
            [{ block_id := (exec [.login "admin" "swarm123"]
                  initial_game_data).contribution_log.length + 1,
               node_id := "ADMIN", action := "Created new game", timestamp := 7,
               impact := "Game initialized" }] }) :=
  create_game_effects _ "g2" "i2.png" ["A"] "A" 7 (by decide)

/-- C1 counterexample: from an Active session, create succeeds, yet the
resulting state still accepts a guess submission without any start() call,
and the Activity Log has changed (a record was appended) — refuting both
the return-to-Created reading and the untouched-log part of the claim. -/
theorem create_sets_created_counterexample :
    ((create_game (exec [.login "admin" "swarm123",
        .create "g1" "i.png" ["A", "B"] "B" 0, .join "Alice" "250" 1, .start 2]
        initial_game_data) "g2" "j.png" ["C", "D"] "C" 3).1.isOk = true) ∧
    ((create_game (exec [.login "admin" "swarm123",
        .create "g1" "i.png" ["A", "B"] "B" 0, .join "Alice" "250" 1, .start 2]
        initial_game_data) "g2" "j.png" ["C", "D"] "C" 3).2.game_active = true) ∧
    ((submit_guess (create_game (exec [.login "admin" "swarm123",
        .create "g1" "i.png" ["A", "B"] "B" 0, .join "Alice" "250" 1, .start 2]
        initial_game_data) "g2" "j.png" ["C", "D"] "C" 3).2
        "Node_01" "C" 4).1.isOk = true) ∧
    ((create_game (exec [.login "admin" "swarm123",
        .create "g1" "i.png" ["A", "B"] "B" 0, .join "Alice" "250" 1, .start 2]
        initial_game_data) "g2" "j.png" ["C", "D"] "C" 3).2.contribution_log ≠
      (exec [.login "admin" "swarm123",
        .create "g1" "i.png" ["A", "B"] "B" 0, .join "Alice" "250" 1, .start 2]
        initial_game_data).contribution_log) := by
  refine ⟨by decide, by decide, by decide, by decide⟩

/-- C2: in the reachable state where the answer has been revealed, reset
succeeds and clears the registry, ledger, question, phase flags and log, and
a subsequent registration is assigned Node_01 again — but the revealed flag
is left set (the update dictionary of reset_game omits it), contradicting
the claim and the handler's own comment that all game data is reset. -/
theorem reset_omits_revealed_flag :
    ((reset_game (exec [.login "admin" "swarm123",
        .create "g1" "i.png" ["A", "B"] "B" 0, .endGame 1, .reveal 2]
        initial_game_data)).1 = .ok ()) ∧
    ((exec [.login "admin" "swarm123", .create "g1" "i.png" ["A", "B"] "B" 0,
        .endGame 1, .reveal 2] initial_game_data).revealed = true) ∧
    ((reset_game (exec [.login "admin" "swarm123",
        .create "g1" "i.png" ["A", "B"] "B" 0, .endGame 1, .reveal 2]
        initial_game_data)).2.revealed = true) ∧
    ((reset_game (exec [.login "admin" "swarm123",
        .create "g1" "i.png" ["A", "B"] "B" 0, .endGame 1, .reveal 2]
        initial_game_data)).2.players = []) ∧
    ((reset_game (exec [.login "admin" "swarm123",
        .create "g1" "i.png" ["A", "B"] "B" 0, .endGame 1, .reveal 2]
        initial_game_data)).2.guesses = []) ∧
    ((reset_game (exec [.login "admin" "swarm123",
        .create "g1" "i.png" ["A", "B"] "B" 0, .endGame 1, .reveal 2]
        initial_game_data)).2.current_game = none) ∧
    ((reset_game (exec [.login "admin" "swarm123",
        .create "g1" "i.png" ["A", "B"] "B" 0, .endGame 1, .reveal 2]
        initial_game_data)).2.contribution_log = []) ∧
    ((reset_game (exec [.login "admin" "swarm123",
        .create "g1" "i.png" ["A", "B"] "B" 0, .endGame 1, .reveal 2]
        initial_game_data)).2.game_active = false) ∧
    ((reset_game (exec [.login "admin" "swarm123",
        .create "g1" "i.png" ["A", "B"] "B" 0, .endGame 1, .reveal 2]
        initial_game_data)).2.game_ended = false) ∧
    ((join_game (reset_game (exec [.login "admin" "swarm123",
        .create "g1" "i.png" ["A", "B"] "B" 0, .endGame 1, .reveal 2]
        initial_game_data)).2 "Alice" "250" 9).1 =
      .ok { node_id := "Node_01", roll_number := "250", avatar := "🐝" }) := by
  refine ⟨by decide, by decide, by decide, by decide, by decide,
    by decide, by decide, by decide, by decide, by decide⟩

/-- C4: reveal by a logged-in admin before end fails with the precondition
error and changes nothing; after end (with the question installed, in any
reachable state) it succeeds, its individual results pair one entry per
ledger guess whose correctness flag is exactly the comparison of the guess
value against the question's correct answer, and it sets the revealed
flag. -/
theorem reveal_gates_and_results (s : GameData) (t : Nat) (gm : Game) :
    (s.admin_logged_in = true → s.game_ended = false →
      reveal_answer s t = (.error .gameNotEnded, s)) ∧
    (Reachable s → s.admin_logged_in = true → s.game_ended = true →
      s.current_game = some gm →
      ∃ p, (reveal_answer s t).1 = .ok p ∧
        p.individual_results.length = s.guesses.length ∧
        List.Forall₂ (fun (g : Guess) (r : IndividualResult) =>
          r.correct = (g.guess == gm.correct_answer)) s.guesses
          p.individual_results ∧
        (reveal_answer s t).2.revealed = true) := by
  constructor
  · intro ha hb
    unfold reveal_answer
    rw [if_neg (by rw [ha]; decide), if_pos hb]
  · intro hreach ha hb hgm
    have hinv := reachable_inv s hreach
    obtain ⟨l, hl, hall⟩ :=
      individual_results_of_spec gm s.players s.guesses hinv.guesses_registered
    refine ⟨⟨l, pyRound1 (swarm_accuracy_of s), gm.correct_answer,
      s.swarm_results, s.guesses.length⟩, ?_, ?_, ?_, ?_⟩
    · simp [reveal_answer, ha, hb, hgm, hl]
    · exact hall.length_eq.symm
    · exact hall.imp fun a b hr => hr.2.2
    · simp [reveal_answer, ha, hb, hgm, hl, log_contribution]

/-- C4 witness: a not-yet-ended failure and the full successful reveal on a
one-guess session. -/
theorem reveal_gates_and_results_witness :
    (reveal_answer (exec [.login "admin" "swarm123",
        .create "g1" "i.png" ["A", "B"] "B" 0] initial_game_data) 9 =
      (.error .gameNotEnded, exec [.login "admin" "swarm123",
        .create "g1" "i.png" ["A", "B"] "B" 0] initial_game_data)) ∧
    (∃ p, (reveal_answer (exec [.login "admin" "swarm123",
        .create "g1" "i.png" ["A", "B"] "B" 0, .join "Alice" "250" 1,
        .start 2, .submit "Node_01" "B" 3, .endGame 4] initial_game_data) 9).1
          = .ok p ∧
      p.individual_results.length = (exec [.login "admin" "swarm123",
        .create "g1" "i.png" ["A", "B"] "B" 0, .join "Alice" "250" 1,
        .start 2, .submit "Node_01" "B" 3, .endGame 4]
        initial_game_data).guesses.length ∧
      List.Forall₂ (fun (g : Guess) (r : IndividualResult) =>
        r.correct = (g.guess == (Game.mk "g1" "i.png" ["A", "B"] "B"
          0).correct_answer)) (exec [.login "admin" "swarm123",
        .create "g1" "i.png" ["A", "B"] "B" 0, .join "Alice" "250" 1,
        .start 2, .submit "Node_01" "B" 3, .endGame 4]
        initial_game_data).guesses p.individual_results ∧
      (reveal_answer (exec [.login "admin" "swarm123",
        .create "g1" "i.png" ["A", "B"] "B" 0, .join "Alice" "250" 1,
        .start 2, .submit "Node_01" "B" 3, .endGame 4]
        initial_game_data) 9).2.revealed = true) :=
  ⟨(reveal_gates_and_results _ 9 (Game.mk "g1" "i.png" ["A", "B"] "B" 0)).1
      (by decide) (by decide),
   (reveal_gates_and_results _ 9 (Game.mk "g1" "i.png" ["A", "B"] "B" 0)).2
      ⟨[.login "admin" "swarm123", .create "g1" "i.png" ["A", "B"] "B" 0,
        .join "Alice" "250" 1, .start 2, .submit "Node_01" "B" 3, .endGame 4],
        rfl⟩
      (by decide) (by decide) (by decide)⟩

/-- C6: in every reachable state the ledger holds at most one guess per
node id, and a further submit for a node that already has a guess (with the
session active and a non-empty guess value) fails with the duplicate error
and leaves the state — in particular the ledger length — unchanged. -/
theorem guess_ledger_unique (s : GameData) (node guess : String) (t : Nat) :
    (Reachable s → (s.guesses.map Guess.node_id).Nodup) ∧
    (Reachable s → s.game_active = true → guess ≠ "" →
      (∃ g0 ∈ s.guesses, g0.node_id = node) →
      submit_guess s node guess t = (.error .duplicateGuess, s)) := by
  constructor
  · intro h
    exact (reachable_inv s h).guesses_nodup
  · intro h hact hg hex
    obtain ⟨g0, hg0, hg0n⟩ := hex
    have hinv := reachable_inv s h
    have hnode_ne : node ≠ "" := by
      rw [← hg0n]
      exact hinv.guesses_nonempty g0 hg0
    have hsome : (s.players.lookup node).isSome = true := by
      rw [← hg0n]
      exact hinv.guesses_registered g0 hg0
    have hdup : (s.guesses.any fun g => g.node_id == node) = true := by
      rw [List.any_eq_true]
      exact ⟨g0, hg0, by simp [hg0n]⟩
    unfold submit_guess
    dsimp only
    rw [if_neg (by rw [hact]; decide), if_neg (by simp [hnode_ne, hg]),
      if_neg ?_, if_pos hdup]
    rw [Bool.not_eq_true, Option.isNone_eq_false_iff]
    exact hsome

/-- C6 witness: after one guess by Node_01, its second (different) guess is
rejected as a duplicate with the state unchanged, and the ledger ids are
distinct in that state. -/
theorem guess_ledger_unique_witness :
    ((exec [.login "admin" "swarm123", .create "g1" "i.png" ["A", "B"] "B" 0,
        .join "Alice" "250" 1, .start 2, .submit "Node_01" "A" 3]
        initial_game_data).guesses.map Guess.node_id).Nodup ∧
    submit_guess (exec [.login "admin" "swarm123",
        .create "g1" "i.png" ["A", "B"] "B" 0, .join "Alice" "250" 1,
        .start 2, .submit "Node_01" "A" 3] initial_game_data) "Node_01" "B" 4 =
      (.error .duplicateGuess, exec [.login "admin" "swarm123",
        .create "g1" "i.png" ["A", "B"] "B" 0, .join "Alice" "250" 1,
        .start 2, .submit "Node_01" "A" 3] initial_game_data) :=
  ⟨(guess_ledger_unique _ "Node_01" "B" 4).1
      ⟨[.login "admin" "swarm123", .create "g1" "i.png" ["A", "B"] "B" 0,
        .join "Alice" "250" 1, .start 2, .submit "Node_01" "A" 3], rfl⟩,
   (guess_ledger_unique _ "Node_01" "B" 4).2
      ⟨[.login "admin" "swarm123", .create "g1" "i.png" ["A", "B"] "B" 0,
        .join "Alice" "250" 1, .start 2, .submit "Node_01" "A" 3], rfl⟩
      (by decide) (by decide) (by decide)⟩

/-- C8: starting from an empty registry, the node ids assigned by any run
of registrations that all succeed are exactly Node_01, Node_02, ... — the
string Node_ followed by the 1-based registration index rendered in decimal
and zero-padded to width 2 — and they are pairwise distinct. -/
theorem node_ids_sequential (s : GameData) (inputs : List (String × String × Nat))
    (hempty : s.players = [])
    (hok : ∀ r ∈ (run_joins s inputs).2, r.isOk = true) :
    assigned_ids (run_joins s inputs).2 =
      (List.range' 1 inputs.length).map node_id_for ∧
    (assigned_ids (run_joins s inputs).2).Nodup := by
  have hids := run_joins_ids inputs s hok
  rw [hempty] at hids
  simp only [List.length_nil, Nat.zero_add] at hids
  refine ⟨hids, ?_⟩
  rw [hids]
  exact (List.nodup_range' _ _).map node_id_for_injective

/-- C8 witness: three successful registrations from the initial state are
assigned Node_01, Node_02, Node_03, pairwise distinct. -/
theorem node_ids_sequential_witness :
    assigned_ids (run_joins initial_game_data
        [("Alice", "250", 0), ("Bob", "251", 1), ("Cara", "252", 2)]).2 =
      (List.range' 1 ([("Alice", "250", 0), ("Bob", "251", 1),
        ("Cara", "252", 2)] : List (String × String × Nat)).length).map
        node_id_for ∧
    (assigned_ids (run_joins initial_game_data
        [("Alice", "250", 0), ("Bob", "251", 1), ("Cara", "252", 2)]).2).Nodup :=
  node_ids_sequential initial_game_data
    [("Alice", "250", 0), ("Bob", "251", 1), ("Cara", "252", 2)]
    rfl (by decide)

/-- C10: in the reveal and dashboard success payloads, total_participants
is the ledger length (number of guesses); and in every reachable state with
a registered participant who has not guessed, the ledger length is strictly
below the registry size — so the reported figure undercounts the
registered participants. -/
theorem total_participants_is_ledger_size (s : GameData) (t : Nat) :
    (∀ p s2, reveal_answer s t = (.ok p, s2) →
      p.total_participants = s.guesses.length) ∧
    (∀ p s2, get_dashboard s = (.ok p, s2) →
      p.total_participants = s.guesses.length) ∧
    (Reachable s →
      (∃ kv ∈ s.players, ∀ g ∈ s.guesses, g.node_id ≠ kv.1) →
      s.guesses.length < s.players.length) := by
  refine ⟨?_, ?_, ?_⟩
  · intro p s2 h
    unfold reveal_answer at h
    dsimp only at h
    split at h
    · simp at h
    · split at h
      · simp at h
      · split at h
        · simp at h
        · split at h
          · simp at h
          · injection (congrArg Prod.fst h) with hp
            rw [← hp]
  · intro p s2 h
    unfold get_dashboard at h
    split at h
    · simp at h
    · split at h
      · simp at h
      · injection (congrArg Prod.fst h) with hp
        rw [← hp]
  · intro hreach hex
    obtain ⟨kv, hkv, hnone⟩ := hex
    have hinv := reachable_inv s hreach
    have hkeys_nodup : (s.players.map Prod.fst).Nodup := by
      rw [hinv.keys_canonical]
      refine List.Nodup.map ?_ (List.nodup_range _)
      intro a b hab
      have := node_id_for_injective hab
      omega
    have hsub : ∀ x ∈ s.guesses.map Guess.node_id, x ∈ s.players.map Prod.fst := by
      intro x hx
      rw [List.mem_map] at hx
      obtain ⟨g, hg, hgx⟩ := hx
      rw [← hgx, ← lookup_isSome_iff]
      exact hinv.guesses_registered g hg
    have hknotin : kv.1 ∉ s.guesses.map Guess.node_id := by
      rw [List.mem_map]
      rintro ⟨g, hg, hgx⟩
      exact hnone g hg hgx
    have := length_lt_of_missing (s.guesses.map Guess.node_id)
      (s.players.map Prod.fst) hinv.guesses_nodup hsub kv.1
      (List.mem_map_of_mem Prod.fst hkv) hknotin
    simpa using this

/-- C10 witness: with two registered players and one guess, reveal and
dashboard both report 1 participant, strictly below the registry size 2. -/
theorem total_participants_witness :
    (RevealPayload.mk [IndividualResult.mk "Node_01" "Alice" "250" "B" true]
        100 "B" [("B", 100)] 1).total_participants =
      (exec [.login "admin" "swarm123", .create "g1" "i.png" ["A", "B"] "B" 0,
        .join "Alice" "250" 1, .join "Bob" "251" 2, .start 3,
        .submit "Node_01" "B" 4, .endGame 5]
        initial_game_data).guesses.length ∧
    (DashboardPayload.mk [AccuracyEntry.mk "Node_01" "Alice" "250" 100] 100
        ((exec [.login "admin" "swarm123", .create "g1" "i.png" ["A", "B"] "B" 0,
          .join "Alice" "250" 1, .join "Bob" "251" 2, .start 3,
          .submit "Node_01" "B" 4, .endGame 5]
          initial_game_data).contribution_log) 1
        ((exec [.login "admin" "swarm123", .create "g1" "i.png" ["A", "B"] "B" 0,
          .join "Alice" "250" 1, .join "Bob" "251" 2, .start 3,
          .submit "Node_01" "B" 4, .endGame 5]
          initial_game_data).swarm_results)).total_participants =
      (exec [.login "admin" "swarm123", .create "g1" "i.png" ["A", "B"] "B" 0,
        .join "Alice" "250" 1, .join "Bob" "251" 2, .start 3,
        .submit "Node_01" "B" 4, .endGame 5]
        initial_game_data).guesses.length ∧
    (exec [.login "admin" "swarm123", .create "g1" "i.png" ["A", "B"] "B" 0,
        .join "Alice" "250" 1, .join "Bob" "251" 2, .start 3,
        .submit "Node_01" "B" 4, .endGame 5]
        initial_game_data).guesses.length <
      (exec [.login "admin" "swarm123", .create "g1" "i.png" ["A", "B"] "B" 0,
        .join "Alice" "250" 1, .join "Bob" "251" 2, .start 3,
        .submit "Node_01" "B" 4, .endGame 5]
        initial_game_data).players.length :=
  ⟨(total_participants_is_ledger_size _ 9).1
      (RevealPayload.mk [IndividualResult.mk "Node_01" "Alice" "250" "B" true]
        100 "B" [("B", 100)] 1)
      (reveal_answer (exec [.login "admin" "swarm123",
        .create "g1" "i.png" ["A", "B"] "B" 0, .join "Alice" "250" 1,
        .join "Bob" "251" 2, .start 3, .submit "Node_01" "B" 4, .endGame 5]
        initial_game_data) 9).2 (by decide),
   (total_participants_is_ledger_size _ 9).2.1
      (DashboardPayload.mk [AccuracyEntry.mk "Node_01" "Alice" "250" 100] 100
        ((exec [.login "admin" "swarm123", .create "g1" "i.png" ["A", "B"] "B" 0,
          .join "Alice" "250" 1, .join "Bob" "251" 2, .start 3,
          .submit "Node_01" "B" 4, .endGame 5]
          initial_game_data).contribution_log) 1
        ((exec [.login "admin" "swarm123", .create "g1" "i.png" ["A", "B"] "B" 0,
          .join "Alice" "250" 1, .join "Bob" "251" 2, .start 3,
          .submit "Node_01" "B" 4, .endGame 5]
          initial_game_data).swarm_results))
      (get_dashboard (exec [.login "admin" "swarm123",
        .create "g1" "i.png" ["A", "B"] "B" 0, .join "Alice" "250" 1,
        .join "Bob" "251" 2, .start 3, .submit "Node_01" "B" 4, .endGame 5]
        initial_game_data)).2 (by decide),
   (total_participants_is_ledger_size _ 9).2.2
      ⟨[.login "admin" "swarm123", .create "g1" "i.png" ["A", "B"] "B" 0,
        .join "Alice" "250" 1, .join "Bob" "251" 2, .start 3,
        .submit "Node_01" "B" 4, .endGame 5], rfl⟩ (by decide)⟩
